import Mathlib

/-!
Verification development for the background media ingestion pipeline of the
Youtalk repository (sources: `app.py` and `downloader.py`).

The Python code is shallowly embedded as executable Lean functions.  External
effects (subprocess calls to yt-dlp / ffprobe / ffmpeg, the file system, the
speech-recognition backends, the MySQL row) are modelled as explicit oracle
environments: each record field below corresponds to the value the Python code
observes from one external call.  Callees whose source wraps the whole body in
a catch-all `try/except` are modelled as total functions; calls the orchestrator
makes that can raise are modelled with `Except`, so that injected exceptions at
those steps are part of the environment space.
-/

namespace Youtalk

/-- Python truthiness of an optional string argument (`if s:`):
`None` and the empty string are falsy. -/
def pyTruthy : Option String → Bool
  | none => false
  | some s => !s.data.isEmpty

/-- `s.replace('\\', '/')` from `update_video_download_status` (app.py:200):
both pattern and replacement are single characters, so it is a character map. -/
def fixSep (s : String) : String :=
  ⟨s.data.map (fun c => if c = '\\' then '/' else c)⟩

/-- `isPre n h` decides whether the character list `n` is an initial segment of
`h`; used to embed Python's substring test. -/
def isPre : List Char → List Char → Bool
  | [], _ => true
  | _ :: _, [] => false
  | a :: as, b :: bs => a == b && isPre as bs

/-- `strHasL h n` decides whether `n` occurs as a contiguous run inside `h`;
embeds Python's `n in h` on strings. -/
def strHasL : List Char → List Char → Bool
  | [], n => n.isEmpty
  | h :: t, n => isPre n (h :: t) || strHasL t n

/-- Python's `needle in haystack` on strings. -/
def strHas (haystack needle : String) : Bool :=
  strHasL haystack.data needle.data

/-- The marker substring both `download_youtube_video` (downloader.py:80) and
`download_video_background` (app.py:327) test for before deciding whether to
attempt a repair. -/
def markerStr : String := "No video streams"

/-- `"No video streams" in message` as used at the two repair-guard sites. -/
def hasMarker (message : String) : Bool :=
  strHas message markerStr

/-! ## Persisted job row and `update_video_download_status` (app.py:191-235)

Only the columns the orchestrator's write contract covers are modelled
(`download_status`, `video_path`, `audio_path`, `transcript_path`); the
title/description columns are written by separate statements and never by
`update_video_download_status`. -/

structure VideoRow where
  download_status : String
  video_path : Option String
  audio_path : Option String
  transcript_path : Option String

/-- Embedding of `update_video_download_status` (app.py:191-235).  The Python
function first normalises path separators on every truthy path argument and
then chooses one of four UPDATE statements depending on which path arguments
are truthy; database success is modelled as reliable. -/
def update_video_download_status (row : VideoRow) (status : String)
    (video_path audio_path transcript_path : Option String) : VideoRow :=
  let vp := if pyTruthy video_path then video_path.map fixSep else video_path
  let ap := if pyTruthy audio_path then audio_path.map fixSep else audio_path
  let tp := if pyTruthy transcript_path then transcript_path.map fixSep else transcript_path
  if pyTruthy vp && pyTruthy ap && pyTruthy tp then
    { row with download_status := status, video_path := vp, audio_path := ap,
               transcript_path := tp }
  else if pyTruthy vp && pyTruthy ap then
    { row with download_status := status, video_path := vp, audio_path := ap }
  else if pyTruthy vp then
    { row with download_status := status, video_path := vp }
  else
    { row with download_status := status }

/-! ## Validator: `validate_video_file` (downloader.py:140-233) -/

/-- One stream record as parsed from the detailed ffprobe JSON output. -/
structure StreamInfo where
  codec_type : String
  codec_name : String

/-- Outcome of the optional python-magic file-type sniff (downloader.py:158-170):
`unavailable` covers both `ImportError` and a sniffing exception (both are
caught and validation continues); `sniffed mime` is a successful sniff. -/
inductive MagicOutcome
  | unavailable
  | sniffed (mime : String)

/-- Environment observed by one `validate_video_file` call. -/
structure FileEnv where
  fileExists : Bool
  size : Nat
  magic : MagicOutcome
  /-- Detailed ffprobe call (downloader.py:173-177): `ok streams` when the
  process exits 0 and its JSON parses to this stream list, `error stderr`
  when it exits non-zero. -/
  probeDetailed : Except String (List StreamInfo)
  /-- Simpler fallback probe (downloader.py:183-184), consulted only when the
  detailed probe fails: `some b` when it exits 0 and `b` records whether
  `codec_type=video` occurs in its stdout; `none` when it also fails. -/
  probeSimple : Option Bool

structure ValidateResult where
  ok : Bool
  msg : String
  /-- Number of ffprobe processes launched during the call. -/
  ffprobeCalls : Nat

/-- Whether the optional python-magic sniff lets validation proceed to the
structural probe (downloader.py:158-170): it does when the sniff is
unavailable, or when the sniffed mime type starts with `video/` or
`application/octet-stream`. -/
def magicAccepts : MagicOutcome → Bool
  | .unavailable => true
  | .sniffed mime =>
    isPre "video/".data mime.data || isPre "application/octet-stream".data mime.data

/-- The structural-inspection part of `validate_video_file`
(downloader.py:172-229): the detailed ffprobe call, the fallback simple probe,
and the stream classification. -/
def validate_probe (e : FileEnv) : ValidateResult :=
  match e.probeDetailed with
  | .ok streams =>
    if streams.isEmpty then
      ⟨false, "No streams found", 1⟩
    else
      match streams.filter (fun s => s.codec_type == "video") with
      | [] =>
        let stream_types := streams.map (fun s => s.codec_type)
        ⟨false, "No video streams detected. Available streams: " ++ toString stream_types, 1⟩
      | v :: _ =>
        ⟨true, "Valid " ++ v.codec_name ++ " video, " ++ toString e.size ++ " bytes", 1⟩
  | .error stderr =>
    match e.probeSimple with
    | some hasVideo =>
      if !hasVideo then
        ⟨false, "No video streams detected - file may be corrupted or contain only audio", 2⟩
      else
        ⟨true, "Video streams present but detailed validation failed", 2⟩
    | none =>
      ⟨false, "FFprobe failed: " ++ stderr, 2⟩

/-- Embedding of `validate_video_file` (downloader.py:140-233). -/
def validate_video_file (e : FileEnv) : ValidateResult :=
  if !e.fileExists then
    ⟨false, "File not found", 0⟩
  else if e.size < 1024000 then
    ⟨false, "File too small: " ++ toString e.size ++ " bytes", 0⟩
  else
    match e.magic with
    | .sniffed mime =>
      if !magicAccepts (.sniffed mime) then
        ⟨false, "Not a video file: " ++ mime, 0⟩
      else
        validate_probe e
    | .unavailable =>
      validate_probe e

/-! ## Repairer: `repair_video_file` (downloader.py:235-299) -/

/-- Which of the two candidate paths a repair call hands back:
the original `video_path` or the freshly written `*_repaired.mp4`. -/
inductive RPath
  | original
  | repaired

/-- Environment observed by one `repair_video_file` call. -/
structure RepairEnv where
  /-- The ffmpeg re-encode subprocess: `error msg` models a raised
  `TimeoutExpired` or other exception (downloader.py:290-299), `ok rc` a
  completed process with return code `rc`. -/
  ffmpeg : Except String Nat
  /-- `os.path.exists(repaired_path)` after the re-encode. -/
  outputExists : Bool
  /-- `os.path.getsize(repaired_path)`. -/
  outputSize : Nat
  /-- The `os.remove(video_path); os.rename(repaired_path, video_path)` pair
  (downloader.py:266-267): `error msg` models either call raising. -/
  replaceOk : Except String Unit
  /-- `validate_video_file(video_path)` on the replaced file
  (downloader.py:270). -/
  revalidate : Bool × String

structure RepairOut where
  ok : Bool
  path : RPath
  /-- Whether the post-replace re-validation was performed. -/
  revalidated : Bool

/-- Embedding of `repair_video_file` (downloader.py:235-299). -/
def repair_video_file (e : RepairEnv) : RepairOut :=
  match e.ffmpeg with
  | .error _ => ⟨false, .original, false⟩
  | .ok rc =>
    if rc == 0 && e.outputExists then
      if e.outputSize > 1024000 then
        match e.replaceOk with
        | .ok _ =>
          if (e.revalidate).1 then ⟨true, .original, true⟩
          else ⟨false, .original, true⟩
        | .error _ => ⟨true, .repaired, false⟩
      else
        ⟨false, .original, false⟩
    else
      ⟨false, .original, false⟩

/-! ## Chunk splitting inside `transcribe_long_audio` (downloader.py:599-615)

The Python loop is
`start = 0; while start < len(audio): chunk = audio[start : min(start+15000, len)]; start += 15000 - 1000`.
It is embedded with an explicit fuel argument; `len` itself is always enough
fuel because each iteration advances `start` by 14000 ≥ 1. -/

def chunkLoopF : Nat → Nat → Nat → List (Nat × Nat)
  | 0, _, _ => []
  | fuel + 1, len, start =>
    if start < len then
      (start, min (start + 15000) len) :: chunkLoopF fuel len (start + 14000)
    else []

/-- The list of `(start, end)` chunk boundaries (in milliseconds) produced for
an audio segment of length `len` milliseconds. -/
def splitChunks (len : Nat) : List (Nat × Nat) :=
  chunkLoopF len len 0

/-- The chunk-count formula asserted by the specification:
`ceil((D - O) / (L - O))` with `L = 15000` ms and `O = 1000` ms, written with
natural-number ceiling division.  Stated from the spec's words for comparison
against the count the source loop produces. -/
def specChunkCount (D : Nat) : Nat :=
  (D - 1000 + 13999) / 14000

/-! ## Transcriber: `transcribe_audio` and helpers (downloader.py:498-791)

The recognition backends, the audio probe and readability of the audio file
are oracles; writing the transcript artifacts into the job folder
(`save_transcript`, `create_empty_transcript`) is modelled as reliable, so each
code path ends in a written artifact. -/

/-- The artifact `transcribe_audio` leaves in the job folder: either a saved
transcript (with the method tag the source uses) or the structured failure
record written by `create_empty_transcript`, carrying the reason. -/
inductive TOutcome
  | transcript (text : String) (method : String)
  | failed (reason : String)

/-- Environment observed by one `transcribe_audio` call. -/
structure TransEnv where
  /-- `os.path.exists(audio_path)` (downloader.py:501). -/
  audioExists : Bool
  /-- Whisper result text after `.strip()` (downloader.py:750-791); `none`
  covers the library being unavailable, any exception, or a missing text
  field — all of which make `transcribe_with_whisper` return `None`. -/
  whisper : Option String
  /-- `len(AudioSegment.from_file(audio_path))` in milliseconds
  (downloader.py:520-521); `none` models the probe raising, which the source
  catches and treats as duration 0. -/
  durationProbe : Option Nat
  /-- Whether opening the audio for recognition succeeds; `false` models
  `sr.AudioFile` / `AudioSegment.from_file` raising inside the short/long
  helpers, which their handlers turn into a failure artifact. -/
  readable : Bool
  /-- Primary whole-clip `recognize_google` call (downloader.py:559-568):
  `none` models `UnknownValueError` / `RequestError`. -/
  googleShort : Option String
  /-- The `show_all=True` retry's top alternative (downloader.py:570-579):
  `none` models failure or an empty alternative list. -/
  googleAlt : Option String
  /-- Per-chunk `recognize_google` call (downloader.py:633): the result for
  chunk `i`, `none` modelling any recognition exception. -/
  chunkRec : Nat → Option String

/-- Embedding of `transcribe_with_whisper` (downloader.py:750-791). -/
def transcribe_with_whisper (e : TransEnv) : Option TOutcome :=
  match e.whisper with
  | none => none
  | some text => if text.data.isEmpty then none else some (.transcript text "whisper")

/-- Embedding of `transcribe_short_audio` (downloader.py:539-589). -/
def transcribe_short_audio (e : TransEnv) : TOutcome :=
  if !e.readable then
    .failed "Short audio error: could not read audio"
  else
    let text := e.googleShort
    let text := if pyTruthy text then text else e.googleAlt
    if pyTruthy text then .transcript (text.getD "") "short"
    else .failed "No speech content detected"

/-- Embedding of `transcribe_long_audio` (downloader.py:591-662); `len_ms` is
the length of the loaded audio segment.  Each chunk is exported to a temporary
file, recognised, and the temporary file removed regardless of outcome; only
the recognised texts matter here. -/
def transcribe_long_audio (e : TransEnv) (len_ms : Nat) : TOutcome :=
  if !e.readable then
    .failed "Long audio error: could not read audio"
  else
    let all_texts := (List.range (splitChunks len_ms).length).filterMap
      (fun i =>
        match e.chunkRec i with
        | some t => if t.data.isEmpty then none else some t
        | none => none)
    if all_texts.isEmpty then
      .failed "No speech content detected in any chunks"
    else
      .transcript (String.intercalate " " all_texts) "chunked"

/-- Embedding of `transcribe_audio` (downloader.py:498-537).  The duration
threshold `duration_seconds > 30` on `len/1000` is equivalent to
`len_ms > 30000` for integral millisecond lengths. -/
def transcribe_audio (e : TransEnv) : TOutcome :=
  if !e.audioExists then
    .failed "Audio file not found"
  else
    match transcribe_with_whisper e with
    | some out => out
    | none =>
      let duration_ms := match e.durationProbe with
        | some d => d
        | none => 0
      if duration_ms > 30000 then transcribe_long_audio e duration_ms
      else transcribe_short_audio e

/-! ## One job's run: `download_youtube_video` (downloader.py:28-103) and
`download_video_background` (app.py:273-392)

Every external call the two functions make is an oracle field of `Env`.
`validate` and `repair` are indexed by the job-global call number, because the
same job may validate the (possibly changing) file several times.
`validate_video_file`, `repair_video_file`, `extract_audio_from_video` and
`download_youtube_video` all wrap their bodies in catch-all handlers, so their
outcomes are plain values; `os.makedirs`, `os.path.getsize` and the transcript
write inside `transcribe_audio`'s failure handler can raise into the
orchestrator, so those oracles are `Except`. -/

/-- How many `validate_video_file` (`nv`) and `repair_video_file` (`nr`) calls
the job has performed so far. -/
structure Counters where
  nv : Nat
  nr : Nat

/-- Oracle environment for one job's background run. -/
structure Env where
  /-- `os.makedirs` inside `get_video_folder` (app.py:53): `error` models it
  raising before any status beyond the initial one is written. -/
  mkFolder : Except String Unit
  /-- yt-dlp subprocess in `download_youtube_video` (downloader.py:56):
  `error msg` models a raised `TimeoutExpired`/exception with `msg` the
  message its handler reports; `ok (rc, stderr)` a completed process. -/
  ytdlp : Except String (Nat × String)
  /-- The post-download folder scan (downloader.py:63-71): the first file with
  a video extension and size > 1024000 bytes, if any. -/
  scan : Option String
  /-- Outcome `(ok, message)` of the n-th `validate_video_file` call of this
  job (the wrapper's call is number 0). -/
  validate : Nat → Bool × String
  /-- Outcome `(ok, path)` of the n-th `repair_video_file` call of this job. -/
  repair : Nat → Bool × String
  /-- `os.path.getsize(result)` at app.py:320; `error` models it raising. -/
  getsize : Except String Nat
  /-- `extract_audio_from_video` result (downloader.py:301-349): the audio
  path, or `none` after all methods and retries fail.  Its body catches all
  exceptions, so it cannot raise. -/
  audio : Option String
  /-- `transcribe_audio` result: the transcript path it returns; `error`
  models the final artifact write itself raising. -/
  transcribe : Except String String

/-- Embedding of `download_youtube_video` (downloader.py:28-103), threading the
validate/repair call counters. -/
def download_youtube_video (env : Env) (c : Counters) : (Bool × String) × Counters :=
  match env.ytdlp with
  | .error e => ((false, e), c)
  | .ok rcerr =>
    if rcerr.1 != 0 then
      ((false, "Download failed: " ++ rcerr.2), c)
    else
      match env.scan with
      | none => ((false, "No valid video file found after download"), c)
      | some video_file =>
        let vres := env.validate c.nv
        let c1 : Counters := ⟨c.nv + 1, c.nr⟩
        if vres.1 then
          ((true, video_file), c1)
        else if hasMarker vres.2 then
          ((false, "Downloaded file has no video streams: " ++ vres.2), c1)
        else
          let rres := env.repair c1.nr
          let c2 : Counters := ⟨c1.nv, c1.nr + 1⟩
          if rres.1 then
            ((true, rres.2), c2)
          else
            ((false, "Video file invalid and repair failed: " ++ vres.2), c2)

/-- Result of one job's background run: the persisted row and how many
validate/repair calls happened. -/
structure RunResult where
  row : VideoRow
  validateCalls : Nat
  repairCalls : Nat

/-- Audio-extraction / transcription / final-update tail of
`download_video_background` (app.py:349-370), entered once a valid video file
`result` is in hand. -/
def finishPipeline (env : Env) (row1 : VideoRow) (result : String)
    (c : Counters) : RunResult :=
  match env.audio with
  | some audio_path =>
    match env.transcribe with
    | .error _ =>
      ⟨update_video_download_status row1 "failed" none none none, c.nv, c.nr⟩
    | .ok transcript_path =>
      ⟨update_video_download_status row1 "completed" (some result)
        (some audio_path) (some transcript_path), c.nv, c.nr⟩
  | none =>
    ⟨update_video_download_status row1 "completed" (some result) none none,
      c.nv, c.nr⟩

/-- Embedding of `download_video_background` (app.py:273-392).  The semaphore
acquisition around the body is modelled separately as a transition system; the
metadata fetch and title/description updates (app.py:288-303) touch only
columns outside the modelled row and cannot raise (their callees catch
internally).  Any exception escaping a step of the body is caught by the
handler at app.py:389-392, which marks the job failed. -/
def download_video_background (env : Env) (row0 : VideoRow) : RunResult :=
  match env.mkFolder with
  | .error _ =>
    ⟨update_video_download_status row0 "failed" none none none, 0, 0⟩
  | .ok _ =>
    let row1 := update_video_download_status row0 "downloading" none none none
    let dl := download_youtube_video env ⟨0, 0⟩
    let dres := dl.1
    let c1 := dl.2
    if dres.1 then
      let result := dres.2
      let vres := env.validate c1.nv
      let c2 : Counters := ⟨c1.nv + 1, c1.nr⟩
      if !vres.1 then
        match env.getsize with
        | .error _ =>
          ⟨update_video_download_status row1 "failed" none none none, c2.nv, c2.nr⟩
        | .ok file_size =>
          if file_size < 1024000 then
            ⟨update_video_download_status row1 "failed" none none none, c2.nv, c2.nr⟩
          else if hasMarker vres.2 then
            ⟨update_video_download_status row1 "failed" none none none, c2.nv, c2.nr⟩
          else
            let rres := env.repair c2.nr
            let c3 : Counters := ⟨c2.nv, c2.nr + 1⟩
            if rres.1 then
              let result2 := rres.2
              let vres2 := env.validate c3.nv
              let c4 : Counters := ⟨c3.nv + 1, c3.nr⟩
              if !vres2.1 then
                ⟨update_video_download_status row1 "failed" none none none, c4.nv, c4.nr⟩
              else
                finishPipeline env row1 result2 c4
            else
              ⟨update_video_download_status row1 "failed" none none none, c3.nv, c3.nr⟩
      else
        finishPipeline env row1 result c2
    else
      ⟨update_video_download_status row1 "failed" none none none, c1.nv, c1.nr⟩

/-! ## Admission semaphore (app.py:31, app.py:275)

`DOWNLOAD_SEMAPHORE = threading.Semaphore(2)` guards the whole body of
`download_video_background` via `with DOWNLOAD_SEMAPHORE:`.  A job is
`waiting` until its thread acquires a slot, `running` while it executes the
guarded body (heavy stages through the terminal status update), and `done`
after the `with` block releases the slot — which happens only once the job's
terminal status has been persisted. -/

inductive Phase
  | waiting
  | running
  | done

/-- State of the process: the semaphore's internal counter and every job
thread's phase. -/
structure SemState where
  sem : Nat
  jobs : List Phase

/-- Number of jobs currently inside the semaphore-guarded body. -/
def runningCount : List Phase → Nat
  | [] => 0
  | Phase.running :: t => runningCount t + 1
  | _ :: t => runningCount t

/-- Interleaving semantics of the job threads: a waiting thread may acquire a
slot when the counter is positive (`threading.Semaphore.acquire`), and a
running thread releases its slot when its `with` block exits after the
terminal status update. -/
inductive SemStep : SemState → SemState → Prop
  | acquire (s : SemState) (i : Nat)
      (hi : s.jobs.get? i = some Phase.waiting) (hs : 0 < s.sem) :
      SemStep s ⟨s.sem - 1, s.jobs.set i Phase.running⟩
  | release (s : SemState) (i : Nat)
      (hi : s.jobs.get? i = some Phase.running) :
      SemStep s ⟨s.sem + 1, s.jobs.set i Phase.done⟩

/-- Initial state after submitting `n` jobs: the module-level semaphore was
initialised with capacity 2 and every job thread is waiting. -/
def initState (n : Nat) : SemState :=
  ⟨2, List.replicate n Phase.waiting⟩

/-- States reachable by any interleaving of the `n` job threads. -/
def Reachable (n : Nat) (s : SemState) : Prop :=
  Relation.ReflTransGen SemStep (initState n) s

/-! ## Helper lemmas -/

lemma pyTruthy_map_fixSep (v : Option String) : pyTruthy (v.map fixSep) = pyTruthy v := by
  cases v with
  | none => rfl
  | some s => cases h : s.data <;> simp [pyTruthy, fixSep, h]

lemma update_status_eq (row : VideoRow) (status : String) (v a t : Option String) :
    (update_video_download_status row status v a t).download_status = status := by
  simp only [update_video_download_status]
  repeat' split
  all_goals rfl

lemma update_none_frame (row : VideoRow) (status : String) :
    update_video_download_status row status none none none =
      { row with download_status := status } := by
  simp [update_video_download_status, pyTruthy]

lemma update_video_only (row : VideoRow) (status : String) (p : String)
    (hp : pyTruthy (some p) = true) :
    update_video_download_status row status (some p) none none =
      { row with download_status := status, video_path := some (fixSep p) } := by
  have h2 : pyTruthy (some (fixSep p)) = true := by
    have hm := pyTruthy_map_fixSep (some p)
    simpa [hp] using hm
  have hne : ¬ p.data = [] := by
    intro h0
    simp [pyTruthy, h0] at hp
  have hne2 : ¬ (fixSep p).data = [] := by
    intro h0
    simp [pyTruthy, h0] at h2
  simp [update_video_download_status, pyTruthy, hne, hne2]

lemma isPre_append (n : List Char) : ∀ (h r : List Char),
    isPre n h = true → isPre n (h ++ r) = true := by
  induction n with
  | nil => intro h r _; rfl
  | cons a as ih =>
    intro h r hp
    cases h with
    | nil => exact absurd hp (by simp [isPre])
    | cons b bs =>
      simp only [isPre, Bool.and_eq_true] at hp
      simpa [isPre, hp.1] using ih bs r hp.2

lemma strHasL_of_isPre (h n : List Char) (hp : isPre n h = true) :
    strHasL h n = true := by
  cases h with
  | nil =>
    cases n with
    | nil => rfl
    | cons a as => exact absurd hp (by simp [isPre])
  | cons c t => simp [strHasL, hp]

lemma strHas_append_of_isPre (c x n : String) (hp : isPre n.data c.data = true) :
    strHas (c ++ x) n = true := by
  unfold strHas
  have hd : (c ++ x).data = c.data ++ x.data := rfl
  rw [hd]
  exact strHasL_of_isPre _ _ (isPre_append _ _ _ hp)

lemma hasMarker_detected_append (x : String) :
    hasMarker ("No video streams detected. Available streams: " ++ x) = true := by
  apply strHas_append_of_isPre
  decide

lemma runningCount_set_acquire : ∀ (l : List Phase) (i : Nat),
    l.get? i = some Phase.waiting →
    runningCount (l.set i Phase.running) = runningCount l + 1 := by
  intro l
  induction l with
  | nil => intro i hi; simp at hi
  | cons a t ih =>
    intro i hi
    cases i with
    | zero =>
      simp only [List.get?, Option.some.injEq] at hi
      subst hi
      simp [runningCount]
    | succ j =>
      simp only [List.get?] at hi
      cases a <;> simp [runningCount, List.set, ih j hi]

lemma runningCount_set_release : ∀ (l : List Phase) (i : Nat),
    l.get? i = some Phase.running →
    runningCount l = runningCount (l.set i Phase.done) + 1 := by
  intro l
  induction l with
  | nil => intro i hi; simp at hi
  | cons a t ih =>
    intro i hi
    cases i with
    | zero =>
      simp only [List.get?, Option.some.injEq] at hi
      subst hi
      simp [runningCount]
    | succ j =>
      simp only [List.get?] at hi
      cases a <;> simp [runningCount, List.set, ih j hi]

lemma runningCount_replicate (n : Nat) :
    runningCount (List.replicate n Phase.waiting) = 0 := by
  induction n with
  | zero => rfl
  | succ m ih => simpa [List.replicate, runningCount] using ih

lemma sem_invariant_step {s s' : SemState} (h : SemStep s s')
    (hinv : s.sem + runningCount s.jobs = 2) :
    s'.sem + runningCount s'.jobs = 2 := by
  cases h with
  | acquire i hi hs =>
    have hc := runningCount_set_acquire s.jobs i hi
    simp only [hc]
    omega
  | release i hi =>
    have hc := runningCount_set_release s.jobs i hi
    simp only []
    omega

lemma sem_invariant_reachable {n : Nat} {s : SemState} (h : Reachable n s) :
    s.sem + runningCount s.jobs = 2 := by
  unfold Reachable at h
  induction h with
  | refl => simp [initState, runningCount_replicate]
  | tail _ step ih => exact sem_invariant_step step ih

lemma chunkLoopF_length : ∀ (fuel len start : Nat),
    len ≤ start + 14000 * fuel →
    (chunkLoopF fuel len start).length = (len - start + 13999) / 14000 := by
  intro fuel
  induction fuel with
  | zero =>
    intro len start h
    simp only [chunkLoopF, List.length_nil]
    omega
  | succ f ih =>
    intro len start h
    simp only [chunkLoopF]
    split
    · rename_i hlt
      rw [List.length_cons, ih len (start + 14000) (by omega)]
      omega
    · rename_i hge
      simp only [List.length_nil]
      omega

lemma splitChunks_length (len : Nat) :
    (splitChunks len).length = (len + 13999) / 14000 := by
  have h := chunkLoopF_length len len 0 (by omega)
  simpa using h

lemma dl_marker_no_repair (env : Env)
    (hv : (env.validate 0).1 = false) (hm : hasMarker (env.validate 0).2 = true) :
    (download_youtube_video env ⟨0, 0⟩).1.1 = false ∧
    (download_youtube_video env ⟨0, 0⟩).2.nr = 0 := by
  unfold download_youtube_video
  cases hyt : env.ytdlp with
  | error e => exact ⟨rfl, rfl⟩
  | ok rcerr =>
    by_cases hrc : rcerr.1 != 0
    · simp [hrc]
    · simp only [hrc]
      cases hsc : env.scan with
      | none => exact ⟨rfl, rfl⟩
      | some f => simp [hv, hm]

lemma run_no_repair_of_dl (env : Env) (row0 : VideoRow)
    (hd : (download_youtube_video env ⟨0, 0⟩).1.1 = false)
    (hn : (download_youtube_video env ⟨0, 0⟩).2.nr = 0) :
    (download_video_background env row0).repairCalls = 0 := by
  unfold download_video_background
  cases hmk : env.mkFolder with
  | error e => rfl
  | ok u => simp [hd, hn]

lemma finishPipeline_status (env : Env) (row1 : VideoRow) (result : String)
    (c : Counters) :
    (finishPipeline env row1 result c).row.download_status = "completed" ∨
    (finishPipeline env row1 result c).row.download_status = "failed" := by
  unfold finishPipeline
  repeat' split
  all_goals first
    | exact Or.inl (update_status_eq _ _ _ _ _)
    | exact Or.inr (update_status_eq _ _ _ _ _)

lemma finishPipeline_repairCalls (env : Env) (row1 : VideoRow) (result : String)
    (c : Counters) : (finishPipeline env row1 result c).repairCalls = c.nr := by
  unfold finishPipeline
  repeat' split
  all_goals rfl

lemma dl_repair_le_one (env : Env) :
    (download_youtube_video env ⟨0, 0⟩).2.nr ≤ 1 := by
  unfold download_youtube_video
  cases henv : env.ytdlp with
  | error e => simp
  | ok rcerr =>
    dsimp only
    split_ifs <;> cases hsc : env.scan <;> simp

lemma run_repair_le (env : Env) (row0 : VideoRow) :
    (download_video_background env row0).repairCalls ≤
      (download_youtube_video env ⟨0, 0⟩).2.nr + 1 := by
  unfold download_video_background
  cases hmk : env.mkFolder with
  | error e => simp
  | ok u =>
    dsimp only
    split_ifs
    all_goals try simp [finishPipeline_repairCalls]
    all_goals cases hgs : env.getsize
    all_goals dsimp only
    all_goals try split_ifs
    all_goals simp [finishPipeline_repairCalls]

/-! ## Concrete environments used as witnesses and counterexamples -/

/-- A freshly accepted job row. -/
def rowInit : VideoRow := ⟨"pending", none, none, none⟩

/-- An existing but undersized file (500000 bytes). -/
def feSmall : FileEnv := ⟨true, 500000, .unavailable, .ok [], none⟩

/-- A transcription environment whose audio file is missing. -/
def teMissing : TransEnv := ⟨false, none, none, false, none, none, fun _ => none⟩

/-- A repair environment in which the re-encode succeeds with a big-enough
output but deleting/renaming the original raises. -/
def reRename : RepairEnv :=
  ⟨.ok 0, true, 2000000, .error "Permission denied", (true, "ok")⟩

/-- Environment for the C2 witness: fetch and validation succeed, audio
extraction returns absent. -/
def envAudioAbsent : Env :=
  { mkFolder := .ok ()
    ytdlp := .ok (0, "")
    scan := some "static/downloads/video_9/video_5.mp4"
    validate := fun _ => (true, "Valid h264 video, 2000000 bytes")
    repair := fun _ => (false, "unused")
    getsize := .ok 2000000
    audio := none
    transcribe := .ok "unused" }

/-- The file of the C3 counterexample: an existing 2000000-byte file whose
probed stream list is a single audio stream, and which the python-magic sniff
classifies as `audio/mpeg`. -/
def feMagicAudio : FileEnv :=
  ⟨true, 2000000, .sniffed "audio/mpeg", .ok [⟨"audio", "mp3"⟩], none⟩

/-- Environment for the C3 counterexample: every validation of the job reports
`feMagicAudio`'s verdict. -/
def envMagicAudio : Env :=
  { mkFolder := .ok ()
    ytdlp := .ok (0, "")
    scan := some "static/downloads/video_11/video_2.mp4"
    validate := fun _ => ((validate_video_file feMagicAudio).ok, (validate_video_file feMagicAudio).msg)
    repair := fun _ => (false, "static/downloads/video_11/video_2.mp4")
    getsize := .ok 2000000
    audio := none
    transcribe := .ok "unused" }

/-- The file of the C3 amended witness: same stream list but the sniff is
unavailable, so the structural probe decides. -/
def feAudioOnly : FileEnv :=
  ⟨true, 2000000, .unavailable, .ok [⟨"audio", "mp3"⟩], none⟩

/-- Environment for the C3 amended witness. -/
def envAudioOnly : Env :=
  { mkFolder := .ok ()
    ytdlp := .ok (0, "")
    scan := some "static/downloads/video_12/video_3.mp4"
    validate := fun _ => ((validate_video_file feAudioOnly).ok, (validate_video_file feAudioOnly).msg)
    repair := fun _ => (false, "static/downloads/video_12/video_3.mp4")
    getsize := .ok 2000000
    audio := none
    transcribe := .ok "unused" }

/-- Environment for the C4 counterexample: the wrapper's validation fails
without the marker and its repair succeeds, then the orchestrator's validation
fails again without the marker, so repair is invoked a second time. -/
def envTwoRepairs : Env :=
  { mkFolder := .ok ()
    ytdlp := .ok (0, "")
    scan := some "static/downloads/video_7/video_1.mp4"
    validate := fun n =>
      if n == 0 then (false, "Validation error: moov atom not found")
      else (false, "FFprobe failed: Invalid data found when processing input")
    repair := fun _ => (true, "static/downloads/video_7/video_1_repaired.mp4")
    getsize := .ok 2000000
    audio := none
    transcribe := .ok "unused" }

/-- Environment for the C4 amended witness: the wrapper succeeds with no
repair, then the orchestrator's validation fails, its single repair succeeds,
and the re-validation fails. -/
def envOrchRepair : Env :=
  { mkFolder := .ok ()
    ytdlp := .ok (0, "")
    scan := some "static/downloads/video_8/video_4.mp4"
    validate := fun n =>
      if n == 0 then (true, "Valid h264 video, 2000000 bytes")
      else (false, "Validation error: moov atom not found")
    repair := fun _ => (true, "static/downloads/video_8/video_4_repaired.mp4")
    getsize := .ok 2000000
    audio := none
    transcribe := .ok "unused" }

/-! ## Claims -/

/-- C9: for every call to `update_video_download_status`, the audio path
argument is persisted only when a non-empty video path argument is also
supplied, and the transcript path argument only when non-empty video and audio
path arguments are both supplied; in all other combinations the supplied
audio/transcript arguments are silently dropped and only the status (and the
video path, if given) are written. -/
theorem C9_update_gating (row : VideoRow) (status : String) (v a t : Option String) :
    (update_video_download_status row status v a t).download_status = status ∧
    (pyTruthy v = false →
      (update_video_download_status row status v a t).video_path = row.video_path ∧
      (update_video_download_status row status v a t).audio_path = row.audio_path ∧
      (update_video_download_status row status v a t).transcript_path = row.transcript_path) ∧
    (pyTruthy v = true → pyTruthy a = false →
      (update_video_download_status row status v a t).video_path = v.map fixSep ∧
      (update_video_download_status row status v a t).audio_path = row.audio_path ∧
      (update_video_download_status row status v a t).transcript_path = row.transcript_path) ∧
    (pyTruthy v = true → pyTruthy a = true → pyTruthy t = false →
      (update_video_download_status row status v a t).video_path = v.map fixSep ∧
      (update_video_download_status row status v a t).audio_path = a.map fixSep ∧
      (update_video_download_status row status v a t).transcript_path = row.transcript_path) ∧
    (pyTruthy v = true → pyTruthy a = true → pyTruthy t = true →
      (update_video_download_status row status v a t).video_path = v.map fixSep ∧
      (update_video_download_status row status v a t).audio_path = a.map fixSep ∧
      (update_video_download_status row status v a t).transcript_path = t.map fixSep) := by
  refine ⟨update_status_eq row status v a t, ?_, ?_, ?_, ?_⟩
  · intro hv
    simp [update_video_download_status, hv, pyTruthy_map_fixSep]
  · intro hv ha
    simp [update_video_download_status, hv, ha, pyTruthy_map_fixSep]
  · intro hv ha ht
    simp [update_video_download_status, hv, ha, ht, pyTruthy_map_fixSep]
  · intro hv ha ht
    simp [update_video_download_status, hv, ha, ht, pyTruthy_map_fixSep]

/-- Witness for C9 at concrete arguments: with a non-empty video argument but
an empty (`none`) audio argument, a supplied transcript argument is dropped
and the stored audio path is untouched. -/
theorem C9_update_gating_witness :
    (update_video_download_status ⟨"downloading", none, some "o.wav", none⟩
        "completed" (some "v.mp4") none (some "t.txt")).audio_path = some "o.wav" ∧
    (update_video_download_status ⟨"downloading", none, some "o.wav", none⟩
        "completed" (some "v.mp4") none (some "t.txt")).transcript_path = none := by
  have h := C9_update_gating ⟨"downloading", none, some "o.wav", none⟩
    "completed" (some "v.mp4") none (some "t.txt")
  exact ⟨(h.2.2.1 rfl rfl).2.1, (h.2.2.1 rfl rfl).2.2⟩

/-- C6: a file that exists but is below the 1024000-byte minimum-size
threshold makes `validate_video_file` return a failing verdict without
launching any ffprobe inspection. -/
theorem C6_small_file_fast_fail (e : FileEnv) (hex : e.fileExists = true)
    (hsz : e.size < 1024000) :
    validate_video_file e =
      ⟨false, "File too small: " ++ toString e.size ++ " bytes", 0⟩ := by
  simp [validate_video_file, hex, hsz]

/-- Witness for C6 at a concrete 500000-byte existing file. -/
theorem C6_small_file_fast_fail_witness :
    (validate_video_file feSmall).ok = false ∧
    (validate_video_file feSmall).ffprobeCalls = 0 := by
  have h := C6_small_file_fast_fail feSmall rfl (by decide)
  rw [h]
  exact ⟨rfl, rfl⟩

/-- C10: when the re-encode succeeds and the output meets the minimum-size
threshold but deleting the original file or renaming the repaired file onto it
raises, `repair_video_file` still reports success, returns the new
`_repaired.mp4` path instead of the original video path, and skips
re-validation of the returned file. -/
theorem C10_rename_failure (e : RepairEnv) (msg : String)
    (hff : e.ffmpeg = .ok 0) (hex : e.outputExists = true)
    (hsz : 1024000 < e.outputSize) (hrep : e.replaceOk = .error msg) :
    repair_video_file e = ⟨true, .repaired, false⟩ := by
  simp [repair_video_file, hff, hex, hsz, hrep]

/-- Witness for C10 at a concrete repair environment. -/
theorem C10_rename_failure_witness :
    repair_video_file reRename = ⟨true, .repaired, false⟩ :=
  C10_rename_failure reRename "Permission denied" rfl rfl (by decide) rfl

/-- C5 counterexample: at duration D = 43000 ms (43 s, above the 30 s
threshold that selects the chunked strategy) the splitting loop of
`transcribe_long_audio` produces 4 chunks while the spec formula
ceil((D - O) / (L - O)) yields 3, so the claimed count is wrong. -/
theorem C5_chunk_count_cex :
    30000 < 43000 ∧ (splitChunks 43000).length = 4 ∧ specChunkCount 43000 = 3 ∧
    (splitChunks 43000).length ≠ specChunkCount 43000 := by
  refine ⟨by decide, rfl, by decide, ?_⟩
  decide

/-- C5 amended: splitting an audio segment of D milliseconds produces exactly
ceil(D / (L - O)) = ceil(D / 14000) chunks (the loop advances the start by
L - O each time and emits a chunk for every start below D); in particular
exactly 1 chunk when 0 < D ≤ L - O = 14000 ms. -/
theorem C5_chunk_count_amended (D : Nat) :
    (splitChunks D).length = (D + 13999) / 14000 ∧
    (0 < D → D ≤ 14000 → (splitChunks D).length = 1) := by
  refine ⟨splitChunks_length D, fun h1 h2 => ?_⟩
  rw [splitChunks_length]
  omega

/-- Witness for C5's amended claim at D = 43000 ms and D = 9000 ms. -/
theorem C5_chunk_count_amended_witness :
    (splitChunks 43000).length = (43000 + 13999) / 14000 ∧
    (splitChunks 9000).length = 1 :=
  ⟨(C5_chunk_count_amended 43000).1,
   (C5_chunk_count_amended 9000).2 (by decide) (by decide)⟩

/-- C7: `transcribe_audio` always hands back a transcript artifact it wrote —
either a successful transcript or the structured failure record carrying the
reason — and never an error return; in particular a missing audio file yields
the "failed" transcript artifact. -/
theorem C7_transcribe_total (e : TransEnv) :
    (e.audioExists = false → transcribe_audio e = .failed "Audio file not found") ∧
    ((∃ text method, transcribe_audio e = .transcript text method) ∨
     (∃ reason, transcribe_audio e = .failed reason)) := by
  constructor
  · intro h
    simp [transcribe_audio, h]
  · cases h : transcribe_audio e with
    | transcript text method => exact Or.inl ⟨text, method, rfl⟩
    | failed reason => exact Or.inr ⟨reason, rfl⟩

/-- Witness for C7 at a concrete environment with a missing audio file. -/
theorem C7_transcribe_total_witness :
    transcribe_audio teMissing = .failed "Audio file not found" :=
  (C7_transcribe_total teMissing).1 rfl

/-- C8: for any number of submitted jobs, every state reachable under the
interleaving semantics of the capacity-2 admission semaphore has at most 2
jobs simultaneously inside the semaphore-guarded heavy stages. -/
theorem C8_capacity_bound (n : Nat) (s : SemState) (h : Reachable n s) :
    runningCount s.jobs ≤ 2 := by
  have hinv := sem_invariant_reachable h
  omega

/-- Witness for C8: with 3 submitted jobs, the state in which two jobs hold
the two slots is reachable and satisfies the bound. -/
theorem C8_capacity_bound_witness :
    runningCount [Phase.running, Phase.running, Phase.waiting] ≤ 2 := by
  apply C8_capacity_bound 3 ⟨0, [Phase.running, Phase.running, Phase.waiting]⟩
  exact Relation.ReflTransGen.tail
    (Relation.ReflTransGen.tail Relation.ReflTransGen.refl
      (SemStep.acquire (initState 3) 0 rfl (by decide)))
    (SemStep.acquire ⟨1, [Phase.running, Phase.waiting, Phase.waiting]⟩ 1 rfl (by decide))

/-- C1: whatever the environment does — including injected exceptions at every
step that can raise into the orchestrator body — the job's persisted status
ends in completed or failed when the execution unit runs to completion of its
code path; it is never left at downloading, because every exception is caught
at the `download_video_background` boundary and forces failed. -/
theorem C1_terminal_status (env : Env) (row0 : VideoRow) :
    (download_video_background env row0).row.download_status = "completed" ∨
    (download_video_background env row0).row.download_status = "failed" := by
  unfold download_video_background
  cases hmk : env.mkFolder with
  | error e => exact Or.inr (update_status_eq _ _ _ _ _)
  | ok u =>
    dsimp only
    split_ifs
    all_goals try exact Or.inr (update_status_eq _ _ _ _ _)
    all_goals try exact finishPipeline_status _ _ _ _
    all_goals cases hgs : env.getsize
    all_goals try dsimp only
    all_goals try split_ifs
    all_goals first
      | exact Or.inr (update_status_eq _ _ _ _ _)
      | exact finishPipeline_status _ _ _ _

/-- C2: when the fetch wrapper succeeds, the orchestrator's validation passes,
and audio extraction returns absent, the job's status is set to completed with
the video path persisted and the audio and transcript paths left empty; audio
absence never yields failed. -/
theorem C2_audio_absent_completes (env : Env) (row0 : VideoRow) (p : String)
    (hmk : env.mkFolder = Except.ok ())
    (hdl : (download_youtube_video env ⟨0, 0⟩).1 = (true, p))
    (hp : pyTruthy (some p) = true)
    (hv : (env.validate (download_youtube_video env ⟨0, 0⟩).2.nv).1 = true)
    (ha : env.audio = none)
    (haud : row0.audio_path = none)
    (htr : row0.transcript_path = none) :
    (download_video_background env row0).row.download_status = "completed" ∧
    (download_video_background env row0).row.video_path = some (fixSep p) ∧
    (download_video_background env row0).row.audio_path = none ∧
    (download_video_background env row0).row.transcript_path = none := by
  unfold download_video_background
  rw [hmk]
  try dsimp only
  rw [hdl]
  try dsimp only
  rw [hv]
  try dsimp only
  unfold finishPipeline
  rw [ha]
  rw [update_none_frame, update_video_only _ _ _ hp]
  exact ⟨rfl, rfl, haud, htr⟩

/-- Witness for C2 at a concrete environment. -/
theorem C2_audio_absent_completes_witness :
    (download_video_background envAudioAbsent rowInit).row.download_status = "completed" ∧
    (download_video_background envAudioAbsent rowInit).row.video_path =
      some (fixSep "static/downloads/video_9/video_5.mp4") ∧
    (download_video_background envAudioAbsent rowInit).row.audio_path = none ∧
    (download_video_background envAudioAbsent rowInit).row.transcript_path = none :=
  C2_audio_absent_completes envAudioAbsent rowInit
    "static/downloads/video_9/video_5.mp4" rfl rfl (by decide) rfl rfl rfl rfl

/-- C3 counterexample: `feMagicAudio` exists, meets the size threshold and its
probed stream list has one stream and no video stream, yet `validate_video_file`
rejects it through the python-magic sniff with "Not a video file: audio/mpeg" —
a message without the "No video streams" marker — and the fetch wrapper then
invokes `repair_video_file` for it (one repair call in the run), contradicting
the claim. -/
theorem C3_no_video_streams_cex :
    feMagicAudio.fileExists = true ∧
    1024000 ≤ feMagicAudio.size ∧
    feMagicAudio.probeDetailed = Except.ok [⟨"audio", "mp3"⟩] ∧
    (validate_video_file feMagicAudio).ok = false ∧
    hasMarker (validate_video_file feMagicAudio).msg = false ∧
    (download_video_background envMagicAudio rowInit).repairCalls = 1 := by
  exact ⟨rfl, by decide, rfl, rfl, by decide, rfl⟩

/-- C3 amended: provided the coarse file-type sniff does not preempt the
structural probe (magic unavailable, or the sniffed type is `video/*` or
`application/octet-stream`) and the detailed probe reports the stream list,
a big-enough existing file with at least one stream but no video-typed stream
always fails `validate_video_file` with the "No video streams" marker, and a
job all of whose validations report this file's verdict never invokes
`repair_video_file` — neither in the fetch wrapper nor in the orchestrator. -/
theorem C3_no_video_streams_amended (fe : FileEnv) (ss : List StreamInfo)
    (env : Env) (row0 : VideoRow)
    (hex : fe.fileExists = true)
    (hsz : ¬ fe.size < 1024000)
    (hmag : magicAccepts fe.magic = true)
    (hpd : fe.probeDetailed = .ok ss)
    (hne : ss ≠ [])
    (hnov : ∀ s ∈ ss, ¬ s.codec_type = "video")
    (henv : ∀ n, env.validate n =
      ((validate_video_file fe).ok, (validate_video_file fe).msg)) :
    (validate_video_file fe).ok = false ∧
    hasMarker (validate_video_file fe).msg = true ∧
    (download_video_background env row0).repairCalls = 0 := by
  have hfilter : ss.filter (fun s => s.codec_type == "video") = [] := by
    rw [List.filter_eq_nil_iff]
    intro s hs
    simpa using hnov s hs
  have hprobe : validate_probe fe =
      ⟨false, "No video streams detected. Available streams: " ++
        toString (ss.map (fun s => s.codec_type)), 1⟩ := by
    unfold validate_probe
    rw [hpd]
    dsimp only
    rw [hfilter]
    simp [List.isEmpty_iff, hne]
  have hval : validate_video_file fe =
      ⟨false, "No video streams detected. Available streams: " ++
        toString (ss.map (fun s => s.codec_type)), 1⟩ := by
    unfold validate_video_file
    cases hm : fe.magic with
    | unavailable => simp [hex, hsz, hprobe]
    | sniffed mime =>
      rw [hm] at hmag
      simp [hex, hsz, hmag, hprobe]
  have hok : (validate_video_file fe).ok = false := by rw [hval]
  have hmark : hasMarker (validate_video_file fe).msg = true := by
    rw [hval]
    exact hasMarker_detected_append _
  refine ⟨hok, hmark, ?_⟩
  have hv0 : (env.validate 0).1 = false := by rw [henv 0]; exact hok
  have hm0 : hasMarker (env.validate 0).2 = true := by rw [henv 0]; exact hmark
  obtain ⟨hd, hn⟩ := dl_marker_no_repair env hv0 hm0
  exact run_no_repair_of_dl env row0 hd hn

/-- Witness for C3's amended claim at a concrete audio-only file with the
sniff unavailable. -/
theorem C3_no_video_streams_amended_witness :
    (validate_video_file feAudioOnly).ok = false ∧
    hasMarker (validate_video_file feAudioOnly).msg = true ∧
    (download_video_background envAudioOnly rowInit).repairCalls = 0 :=
  C3_no_video_streams_amended feAudioOnly [⟨"audio", "mp3"⟩] envAudioOnly rowInit
    rfl (by decide) rfl rfl (by simp) (by decide) (fun n => rfl)

/-- C4 counterexample: in `envTwoRepairs` the wrapper's validation fails
repairably and its repair succeeds, then the orchestrator's own validation of
the returned file fails repairably again, so `repair_video_file` is invoked
twice in one job run — contradicting "at most once over the whole job's
run". -/
theorem C4_repair_twice_cex :
    (download_video_background envTwoRepairs rowInit).repairCalls = 2 ∧
    ¬ (download_video_background envTwoRepairs rowInit).repairCalls ≤ 1 := by
  exact ⟨rfl, by decide⟩

/-- C4 amended: `repair_video_file` is invoked at most once per failed
validation at each of its two call sites — at most once inside the fetch
wrapper and at most once more in the orchestrator — hence at most twice, not
once, over the whole job's run; and after the orchestrator's single repair
attempt, a subsequent validation failure leads directly to failed with no
further repair attempt. -/
theorem C4_repair_at_most_twice (env : Env) (row0 : VideoRow) :
    (download_video_background env row0).repairCalls ≤ 2 ∧
    (download_youtube_video env ⟨0, 0⟩).2.nr ≤ 1 ∧
    (download_video_background env row0).repairCalls ≤
      (download_youtube_video env ⟨0, 0⟩).2.nr + 1 ∧
    (∀ file_size : Nat, env.mkFolder = Except.ok () →
      (download_youtube_video env ⟨0, 0⟩).1.1 = true →
      (env.validate (download_youtube_video env ⟨0, 0⟩).2.nv).1 = false →
      env.getsize = Except.ok file_size →
      ¬ file_size < 1024000 →
      hasMarker (env.validate (download_youtube_video env ⟨0, 0⟩).2.nv).2 = false →
      (env.repair (download_youtube_video env ⟨0, 0⟩).2.nr).1 = true →
      (env.validate ((download_youtube_video env ⟨0, 0⟩).2.nv + 1)).1 = false →
      (download_video_background env row0).row.download_status = "failed" ∧
      (download_video_background env row0).repairCalls =
        (download_youtube_video env ⟨0, 0⟩).2.nr + 1) := by
  have h1 := dl_repair_le_one env
  have h2 := run_repair_le env row0
  refine ⟨by omega, h1, h2, ?_⟩
  intro file_size hmk hdl hv hgs hfs hmrk hr hv2
  unfold download_video_background
  rw [hmk]
  try dsimp only
  rw [hdl]
  try dsimp only
  rw [hv]
  try dsimp only
  rw [hgs]
  try dsimp only
  rw [if_neg hfs, hmrk]
  try dsimp only
  rw [hr]
  try dsimp only
  rw [hv2]
  exact ⟨update_status_eq _ _ _ _ _, rfl⟩

/-- Witness for C4's amended claim: in `envOrchRepair` the wrapper performs no
repair, the orchestrator performs exactly one, and the failed re-validation
ends the job in failed. -/
theorem C4_repair_at_most_twice_witness :
    (download_video_background envOrchRepair rowInit).row.download_status = "failed" ∧
    (download_video_background envOrchRepair rowInit).repairCalls =
      (download_youtube_video envOrchRepair ⟨0, 0⟩).2.nr + 1 :=
  (C4_repair_at_most_twice envOrchRepair rowInit).2.2.2 2000000
    rfl rfl rfl rfl (by decide) rfl rfl rfl

end Youtalk
